import Mathlib

/-!
Verification of the Interactive_Webapp storybook front-end.

The repository ships a browser storybook viewer.  `src/frontend/script.js`
contains two concatenated variants of the application script (separated by a
related-document marker): the first variant (lines 1-516, `getApiUrl`-based,
with video support) and the second variant (lines 517-868, `API_BASE_URL`-based,
audio only).  Functions of the first variant are embedded here with suffix `1`,
functions of the second variant with suffix `2`.

The DOM and browser media objects are embedded shallowly:
  * the set of elements currently bearing the `playing` CSS class is the
    `marks` list (element identities are natural numbers; `classList.add` is
    idempotent, `classList.remove` deletes);
  * the single nullable `state.audio` field is an `Option` over audio-element
    handles, and `curEl` records the clicked element captured by the
    `onended`/`onerror`/`catch` closures of the current audio element;
  * the current page's `.storybook-video` visibility toggling
    (`display:block` / `display:none`) is the `videoShown` flag;
  * `requests` counts the audio resource requests issued (`new Audio(url)` or
    the hidden fallback `<audio>` element of the second variant);
  * element trees built by `renderPage` are explicit `Elem` trees.
Timers (`setTimeout`) are collapsed: the state updates a scheduled callback
performs are applied at the point the source schedules them, except for the
animation-end reset of `animating`, which is the separate `animDone` step.
-/

namespace Storybook

/-- Sentence record of the page dataset (spec section 3):
`{ id, speaker, text, audio_granularity, words? }`. -/
structure Sentence where
  id : String
  speaker : String
  text : String
  audio_granularity : String
  words : Option (List String)
deriving DecidableEq, Repr

/-- Page record of the page dataset (spec section 3):
`{ page, image, video?, sticker_number, sentences }`; `sentences` maps a
language code to the sentence list (an association list here). -/
structure PageRecord where
  page : Int
  image : String
  video : Option String
  sticker_number : Int
  sentences : List (String × List Sentence)
deriving DecidableEq, Repr

/-- JavaScript object-key lookup on an association list
(`obj[key]`, `undefined` becomes `none`). -/
def lookupKV {α : Type} : List (String × α) → String → Option α
  | [], _ => none
  | (k, v) :: rest, key => if k = key then some v else lookupKV rest key

/-- JavaScript object-key assignment on an association list (`obj[key] = v`):
updates the existing entry in place or appends a new one, preserving key
insertion order as JS objects do. -/
def insertKV {α : Type} : List (String × α) → String → α → List (String × α)
  | [], k, v => [(k, v)]
  | (k', v') :: rest, k, v =>
      if k' = k then (k, v) :: rest else (k', v') :: insertKV rest k v

/-- The mutable `state` singleton of `script.js` (both variants, lines 2-11 /
519-528) together with the DOM facts the playback code reads and writes
(see the module comment): `marks`, `videoShown`, `curEl`, `requests`. -/
structure ViewState where
  language : String
  showEnglish : Bool
  currentPage : Int
  totalPages : Int
  pages : List PageRecord
  audio : Option Nat
  animating : Bool
  marks : List Nat
  videoShown : Bool
  curEl : Option Nat
  requests : Nat
deriving DecidableEq, Repr

/-- The initial state literal of `script.js` lines 2-11: empty book, page 1,
no audio, nothing marked, no video shown. -/
def initState : ViewState :=
  { language := "english", showEnglish := false, currentPage := 1,
    totalPages := 1, pages := [], audio := none, animating := false,
    marks := [], videoShown := false, curEl := none, requests := 0 }

/-- `stopAudio()` (variant 1 lines 385-393, identical in variant 2 lines
800-808): only when `state.audio` is non-null, pause it, null the field and
remove the `playing` class from every marked element. -/
def stopAudio (s : ViewState) : ViewState :=
  if s.audio.isSome then { s with audio := none, marks := [] } else s

/-- `stopVideo()` (variant 1 lines 14-32): pause and hide the current page's
`.storybook-video` (if any) and restore the image; on the abstraction this
clears `videoShown` (when no page element or no video exists the flag is
already false). -/
def stopVideo (s : ViewState) : ViewState :=
  { s with videoShown := false }

/-- `handleVideoEnd()` (variant 1 lines 34-37): the video's own `ended`
listener, which just calls `stopVideo`. -/
def handleVideoEnd (s : ViewState) : ViewState := stopVideo s

/-- `handleVideoError(e)` (variant 1 lines 39-42): the video's own `error`
listener, which just calls `stopVideo`. -/
def handleVideoError (s : ViewState) : ViewState := stopVideo s

/-- The `animateFlip(dir, cb)` navigation effect common to both variants
(variant 1 lines 342-373, variant 2 lines 772-788): set the `animating`
guard, then the callback moves `currentPage` by `delta` (the 500 ms
timeout that later clears the guard is the separate `animDone` step). -/
def animateFlipNav (s : ViewState) (delta : Int) : ViewState :=
  { s with animating := true, currentPage := s.currentPage + delta }

/-- The 500 ms animation-cleanup timeout (variant 1 lines 362-372, variant 2
lines 731-735): reset the `animating` guard. -/
def animDone (s : ViewState) : ViewState :=
  { s with animating := false }

/-- `prev-page` click handler, variant 1 (lines 130-143): blocked while
animating or at page 1; otherwise stop audio and video and flip back. -/
def prevClick1 (s : ViewState) : ViewState :=
  if s.animating = true ∨ s.currentPage = 1 then s
  else animateFlipNav (stopVideo (stopAudio s)) (-1)

/-- `next-page` click handler, variant 1 (lines 144-157): blocked while
animating or at the last page; otherwise stop audio and video and flip
forward. -/
def nextClick1 (s : ViewState) : ViewState :=
  if s.animating = true ∨ s.currentPage = s.totalPages then s
  else animateFlipNav (stopVideo (stopAudio s)) 1

/-- `prev-page` click handler, variant 2 (lines 601-612): same guard, no
audio/video stop. -/
def prevClick2 (s : ViewState) : ViewState :=
  if s.animating = true ∨ s.currentPage = 1 then s
  else animateFlipNav s (-1)

/-- `next-page` click handler, variant 2 (lines 614-625): same guard, no
audio/video stop. -/
def nextClick2 (s : ViewState) : ViewState :=
  if s.animating = true ∨ s.currentPage = s.totalPages then s
  else animateFlipNav s 1

/-- A navigation request in variant 1: `false` is a prev click, `true` a next
click (ArrowLeft/ArrowRight route to the same handlers, lines 158-169). -/
def navStep1 (s : ViewState) (next : Bool) : ViewState :=
  if next then nextClick1 s else prevClick1 s

theorem prevClick1_totalPages (s : ViewState) :
    (prevClick1 s).totalPages = s.totalPages := by
  unfold prevClick1 animateFlipNav stopVideo stopAudio
  split
  · rfl
  · split <;> rfl

theorem nextClick1_totalPages (s : ViewState) :
    (nextClick1 s).totalPages = s.totalPages := by
  unfold nextClick1 animateFlipNav stopVideo stopAudio
  split
  · rfl
  · split <;> rfl

theorem prevClick1_currentPage_bounds (s : ViewState)
    (h1 : 1 ≤ s.currentPage) (h2 : s.currentPage ≤ s.totalPages) :
    1 ≤ (prevClick1 s).currentPage ∧ (prevClick1 s).currentPage ≤ s.totalPages := by
  unfold prevClick1 animateFlipNav stopVideo stopAudio
  split
  · exact ⟨h1, h2⟩
  · rename_i h
    push_neg at h
    split <;> simp <;> omega

theorem nextClick1_currentPage_bounds (s : ViewState)
    (h1 : 1 ≤ s.currentPage) (h2 : s.currentPage ≤ s.totalPages) :
    1 ≤ (nextClick1 s).currentPage ∧ (nextClick1 s).currentPage ≤ s.totalPages := by
  unfold nextClick1 animateFlipNav stopVideo stopAudio
  split
  · exact ⟨h1, h2⟩
  · rename_i h
    push_neg at h
    split <;> simp <;> omega

theorem prevClick2_currentPage_bounds (s : ViewState)
    (h1 : 1 ≤ s.currentPage) (h2 : s.currentPage ≤ s.totalPages) :
    1 ≤ (prevClick2 s).currentPage ∧ (prevClick2 s).currentPage ≤ s.totalPages := by
  unfold prevClick2 animateFlipNav
  split
  · exact ⟨h1, h2⟩
  · rename_i h
    push_neg at h
    simp
    omega

theorem nextClick2_currentPage_bounds (s : ViewState)
    (h1 : 1 ≤ s.currentPage) (h2 : s.currentPage ≤ s.totalPages) :
    1 ≤ (nextClick2 s).currentPage ∧ (nextClick2 s).currentPage ≤ s.totalPages := by
  unfold nextClick2 animateFlipNav
  split
  · exact ⟨h1, h2⟩
  · rename_i h
    push_neg at h
    simp
    omega

theorem navStep1_preserves (s : ViewState) (b : Bool)
    (h1 : 1 ≤ s.currentPage) (h2 : s.currentPage ≤ s.totalPages) :
    (1 ≤ (navStep1 s b).currentPage ∧
      (navStep1 s b).currentPage ≤ (navStep1 s b).totalPages) := by
  cases b with
  | false =>
      have := prevClick1_currentPage_bounds s h1 h2
      have ht := prevClick1_totalPages s
      simp only [navStep1, Bool.false_eq_true, if_false]
      exact ⟨this.1, ht ▸ this.2⟩
  | true =>
      have := nextClick1_currentPage_bounds s h1 h2
      have ht := nextClick1_totalPages s
      simp only [navStep1, if_true]
      exact ⟨this.1, ht ▸ this.2⟩

/-- C1: a prev request is a no-op (whole state unchanged) while `animating`
or at page 1, and a next request is a no-op while `animating` or at the last
page, in both script variants; single navigation steps preserve
`1 ≤ currentPage ≤ totalPages`, and hence so does every sequence of
variant-1 navigation requests. -/
theorem navigation_guard_and_invariant (s : ViewState) :
    ((s.animating = true ∨ s.currentPage = 1) →
        prevClick1 s = s ∧ prevClick2 s = s) ∧
    ((s.animating = true ∨ s.currentPage = s.totalPages) →
        nextClick1 s = s ∧ nextClick2 s = s) ∧
    (1 ≤ s.currentPage ∧ s.currentPage ≤ s.totalPages →
      (1 ≤ (prevClick1 s).currentPage ∧
          (prevClick1 s).currentPage ≤ (prevClick1 s).totalPages) ∧
      (1 ≤ (nextClick1 s).currentPage ∧
          (nextClick1 s).currentPage ≤ (nextClick1 s).totalPages) ∧
      (1 ≤ (prevClick2 s).currentPage ∧
          (prevClick2 s).currentPage ≤ (prevClick2 s).totalPages) ∧
      (1 ≤ (nextClick2 s).currentPage ∧
          (nextClick2 s).currentPage ≤ (nextClick2 s).totalPages) ∧
      ∀ reqs : List Bool,
        1 ≤ (reqs.foldl navStep1 s).currentPage ∧
          (reqs.foldl navStep1 s).currentPage ≤ (reqs.foldl navStep1 s).totalPages) := by
  refine ⟨?_, ?_, ?_⟩
  · intro h
    constructor
    · unfold prevClick1; rw [if_pos h]
    · unfold prevClick2; rw [if_pos h]
  · intro h
    constructor
    · unfold nextClick1; rw [if_pos h]
    · unfold nextClick2; rw [if_pos h]
  · rintro ⟨h1, h2⟩
    refine ⟨?_, ?_, ?_, ?_, ?_⟩
    · have := prevClick1_currentPage_bounds s h1 h2
      exact ⟨this.1, (prevClick1_totalPages s) ▸ this.2⟩
    · have := nextClick1_currentPage_bounds s h1 h2
      exact ⟨this.1, (nextClick1_totalPages s) ▸ this.2⟩
    · have := prevClick2_currentPage_bounds s h1 h2
      have ht : (prevClick2 s).totalPages = s.totalPages := by
        unfold prevClick2 animateFlipNav; split <;> simp
      exact ⟨this.1, ht ▸ this.2⟩
    · have := nextClick2_currentPage_bounds s h1 h2
      have ht : (nextClick2 s).totalPages = s.totalPages := by
        unfold nextClick2 animateFlipNav; split <;> simp
      exact ⟨this.1, ht ▸ this.2⟩
    · intro reqs
      induction reqs generalizing s with
      | nil => exact ⟨h1, by simpa using h2⟩
      | cons b bs ih =>
          simp only [List.foldl_cons]
          exact ih (navStep1 s b) (navStep1_preserves s b h1 h2).1
            ((navStep1_preserves s b h1 h2).2)

/-- Witness for C1 at concrete states: a blocked prev click at page 1 is the
identity, and from page 2 of 3 the bounds survive a navigation burst. -/
theorem navigation_guard_and_invariant_witness :
    prevClick1 initState = initState ∧
      1 ≤ (([true, true, false].foldl navStep1
            { initState with currentPage := 2, totalPages := 3 })).currentPage := by
  constructor
  · exact ((navigation_guard_and_invariant initState).1 (Or.inr rfl)).1
  · exact (((navigation_guard_and_invariant
      { initState with currentPage := 2, totalPages := 3 }).2.2
        ⟨by decide, by decide⟩).2.2.2.2 [true, true, false]).1

/-! ## Playback controller -/

/-- `el.classList.add('playing')`: idempotent insertion of the element into
the set of marked elements. -/
def insertMark (el : Nat) (ms : List Nat) : List Nat :=
  if el ∈ ms then ms else el :: ms

/-- The body of variant 1's `playAudio` after its two stop calls (lines
400-495): mark the clicked element, look up the current page record (on a
miss, unmark and return without touching `state.audio`), create the audio
element (`new Audio(audioUrl)`, one resource request) and store it in
`state.audio`; if the page record has a `video` field, the 50 ms timeout
shows the video in place of the image (collapsed here to an immediate
update). -/
def playAudioAfterStops (s : ViewState) (el h : Nat) : ViewState :=
  let s1 := { s with marks := insertMark el s.marks }
  match s1.pages.find? (fun p => p.page == s1.currentPage) with
  | none => { s1 with marks := s1.marks.erase el }
  | some pd =>
      let s2 := { s1 with audio := some h, curEl := some el,
                          requests := s1.requests + 1 }
      if pd.video.isSome then { s2 with videoShown := true } else s2

/-- `playAudio(language, sentenceId, audioId, el)` of variant 1 (lines
395-502): `stopAudio(); stopVideo();` then the marking/creation body.
`h` is the identity of the freshly created audio element. -/
def playAudio1 (s : ViewState) (el h : Nat) : ViewState :=
  playAudioAfterStops (stopVideo (stopAudio s)) el h

/-- The `audioElem.onended` closure of variant 1 (lines 491-495): remove the
`playing` class from the clicked element and deliberately nothing else (the
comment at line 494 says not to call `stopVideo`). -/
def audioEnded1 (s : ViewState) (el : Nat) : ViewState :=
  { s with marks := s.marks.erase el }

/-- The `audioElem.onerror` closure of variant 1 (lines 497-501): remove the
`playing` class from the clicked element and stop the video. -/
def audioError1 (s : ViewState) (el : Nat) : ViewState :=
  stopVideo { s with marks := s.marks.erase el }

/-- The `playPromise.catch` closure of variant 1 (lines 420-426): a rejected
`play()` removes the `playing` class from the clicked element, nothing else. -/
def playRejected1 (s : ViewState) (el : Nat) : ViewState :=
  { s with marks := s.marks.erase el }

/-- Playback-path events of variant 1.  `click` is a word/sentence click
(`playAudio`); the audio events fire the closures of the current audio
element, whose captured element is `curEl`; `escape` is the Escape key
(lines 164-168: `stopAudio(); stopVideo()`); `videoDone` is the video's own
`ended`/`error` event. -/
inductive PbEvent where
  | click (el h : Nat)
  | ended
  | failed
  | rejected
  | escape
  | videoDone
deriving DecidableEq, Repr

/-- One playback event step of variant 1. -/
def stepPb (s : ViewState) : PbEvent → ViewState
  | .click el h => playAudio1 s el h
  | .ended => match s.curEl with
      | some el => audioEnded1 s el
      | none => s
  | .failed => match s.curEl with
      | some el => audioError1 s el
      | none => s
  | .rejected => match s.curEl with
      | some el => playRejected1 s el
      | none => s
  | .escape => stopVideo (stopAudio s)
  | .videoDone => stopVideo s

/-- Playback invariant: when no audio handle is held nothing is marked, and
at most one element bears the `playing` class. -/
def pbInv (s : ViewState) : Prop :=
  (s.audio = none → s.marks = []) ∧ s.marks.length ≤ 1

instance (s : ViewState) : Decidable (pbInv s) := by
  unfold pbInv; infer_instance

theorem stopAudio_marks_nil (s : ViewState) (h : pbInv s) :
    (stopAudio s).marks = [] ∧ (stopAudio s).audio = none := by
  unfold stopAudio
  rcases hs : s.audio with _ | a
  · simp [hs, h.1 hs]
  · simp [hs]

theorem erase_length_le_one {l : List Nat} (h : l.length ≤ 1) (el : Nat) :
    (l.erase el).length ≤ 1 :=
  le_trans (List.length_erase_le el l) h

theorem playAudioAfterStops_marks (s : ViewState) (el h : Nat)
    (hm : s.marks = []) :
    (playAudioAfterStops s el h).marks.length ≤ 1 ∧
      ((playAudioAfterStops s el h).audio = none →
        (playAudioAfterStops s el h).marks = []) := by
  obtain ⟨lang, se, cp, tp, pg, au, an, mk, vs, ce, rq⟩ := s
  simp only at hm
  subst hm
  simp only [playAudioAfterStops, insertMark, List.not_mem_nil, if_false]
  rcases hf : pg.find? (fun p => p.page == cp) with _ | pd
  · simp [hf]
  · by_cases hv : pd.video.isSome <;> simp [hf, hv]

theorem playAudio1_marks (s : ViewState) (el h : Nat) (hinv : pbInv s) :
    (playAudio1 s el h).marks.length ≤ 1 ∧
      ((playAudio1 s el h).audio = none → (playAudio1 s el h).marks = []) := by
  have hm : (stopVideo (stopAudio s)).marks = [] := by
    simpa [stopVideo] using (stopAudio_marks_nil s hinv).1
  exact playAudioAfterStops_marks (stopVideo (stopAudio s)) el h hm

theorem stepPb_inv (s : ViewState) (e : PbEvent) (h : pbInv s) :
    pbInv (stepPb s e) := by
  cases e with
  | click el hh =>
      have := playAudio1_marks s el hh h
      exact ⟨this.2, this.1⟩
  | ended =>
      rcases hc : s.curEl with _ | el
      · simpa [stepPb, hc] using h
      · simp only [stepPb, hc]
        unfold audioEnded1
        refine ⟨?_, erase_length_le_one h.2 el⟩
        intro ha
        simp only at ha
        rw [h.1 ha]
        rfl
  | failed =>
      rcases hc : s.curEl with _ | el
      · simpa [stepPb, hc] using h
      · simp only [stepPb, hc]
        unfold audioError1 stopVideo
        refine ⟨?_, erase_length_le_one h.2 el⟩
        intro ha
        simp only at ha
        rw [h.1 ha]
        rfl
  | rejected =>
      rcases hc : s.curEl with _ | el
      · simpa [stepPb, hc] using h
      · simp only [stepPb, hc]
        unfold playRejected1
        refine ⟨?_, erase_length_le_one h.2 el⟩
        intro ha
        simp only at ha
        rw [h.1 ha]
        rfl
  | escape =>
      simp only [stepPb]
      have := stopAudio_marks_nil s h
      unfold stopVideo
      exact ⟨fun _ => this.1, by rw [this.1]; exact Nat.zero_le 1⟩
  | videoDone =>
      simpa [stepPb, stopVideo] using h

theorem pbInv_foldl (s : ViewState) (h : pbInv s) (evs : List PbEvent) :
    pbInv (evs.foldl stepPb s) := by
  induction evs generalizing s with
  | nil => exact h
  | cons e es ih => exact ih (stepPb s e) (stepPb_inv s e h)

/-! ## Variant 2 playback: rejection fallback -/

/-- `playAudio` of variant 2 (lines 810-821 and 850-861): `stopAudio()`, mark
the clicked element, create the audio element (one resource request) and
store it; the closure flag `played` starts `false`.  Returns the new state
and `played`.  (Variant 2 has no video handling at all.) -/
def playAudio2 (s : ViewState) (el h : Nat) : ViewState × Bool :=
  let s1 := stopAudio s
  let s2 := { s1 with marks := insertMark el s1.marks }
  ({ s2 with audio := some h, curEl := some el, requests := s2.requests + 1 },
   false)

/-- The `audioElem.onerror` closure of variant 2 (lines 827-848): when no
fallback has run yet (`played = false`), create a hidden `<audio>` element
with the same URL and `autoplay = true` — a second request for the same
audio resource — append it to the document and set `played`; the `playing`
mark is NOT removed here (only the fallback's own `onended`/`onerror`
closures remove it).  Returns the new state and the updated `played`. -/
def audioError2 (s : ViewState) (_el : Nat) (played : Bool) : ViewState × Bool :=
  if played then (s, played)
  else ({ s with requests := s.requests + 1 }, true)

/-- The `playPromise.catch` closure of variant 2 (lines 851-857): a rejected
`play()` immediately invokes `audioElem.onerror()`. -/
def playRejected2 (s : ViewState) (el : Nat) (played : Bool) : ViewState × Bool :=
  audioError2 s el played

/-- Playback-path events of variant 2, which has no video handling at all:
a word/sentence click (`playAudio`, lines 810-862), the current audio
element's `onended` (lines 822-825) and `onerror` (lines 827-848) closures,
a `play()` rejection routed to `onerror` (lines 851-857), the hidden
fallback element's own `onended` (lines 835-839) and `onerror` (lines
840-844) closures, and the Escape key (lines 633-636: `stopAudio()` only). -/
inductive Pb2Event where
  | click (el h : Nat)
  | ended
  | failed
  | rejected
  | fbEnded
  | fbFailed
  | escape
deriving DecidableEq, Repr

/-- One playback event step of variant 2 on the state paired with the
current audio element's closure flag `played`. -/
def stepPb2 (p : ViewState × Bool) : Pb2Event → ViewState × Bool
  | .click el h => playAudio2 p.1 el h
  | .ended => match p.1.curEl with
      | some el => ({ p.1 with marks := p.1.marks.erase el }, p.2)
      | none => p
  | .failed => match p.1.curEl with
      | some el => audioError2 p.1 el p.2
      | none => p
  | .rejected => match p.1.curEl with
      | some el => playRejected2 p.1 el p.2
      | none => p
  | .fbEnded => match p.1.curEl with
      | some el => ({ p.1 with marks := p.1.marks.erase el }, p.2)
      | none => p
  | .fbFailed => match p.1.curEl with
      | some el => ({ p.1 with marks := p.1.marks.erase el }, p.2)
      | none => p
  | .escape => (stopAudio p.1, p.2)

theorem stopAudio_idem (s : ViewState) :
    stopAudio (stopAudio s) = stopAudio s := by
  unfold stopAudio
  by_cases h : s.audio.isSome <;> simp [h]

theorem playAudio2_factor (s : ViewState) (el h : Nat) :
    playAudio2 s el h = playAudio2 (stopAudio s) el h := by
  unfold playAudio2
  rw [stopAudio_idem]

theorem playAudio2_marks (s : ViewState) (el h : Nat) (hinv : pbInv s) :
    (playAudio2 s el h).1.marks = [el] := by
  unfold playAudio2
  simp [(stopAudio_marks_nil s hinv).1, insertMark]

theorem audioError2_frame (s : ViewState) (el : Nat) (pl : Bool) :
    (audioError2 s el pl).1.marks = s.marks ∧
      (audioError2 s el pl).1.audio = s.audio := by
  cases pl <;> exact ⟨rfl, rfl⟩

theorem stepPb2_inv (p : ViewState × Bool) (e : Pb2Event) (h : pbInv p.1) :
    pbInv (stepPb2 p e).1 := by
  cases e with
  | click el hh =>
      have hm := playAudio2_marks p.1 el hh h
      refine ⟨?_, ?_⟩
      · intro ha
        exact absurd ha (by simp [stepPb2, playAudio2])
      · simp [stepPb2, hm]
  | ended =>
      rcases hc : p.1.curEl with _ | el
      · simpa [stepPb2, hc] using h
      · simp only [stepPb2, hc]
        refine ⟨?_, erase_length_le_one h.2 el⟩
        intro ha
        simp only at ha
        rw [h.1 ha]
        rfl
  | failed =>
      rcases hc : p.1.curEl with _ | el
      · simpa [stepPb2, hc] using h
      · simp only [stepPb2, hc]
        have hf := audioError2_frame p.1 el p.2
        refine ⟨?_, ?_⟩
        · intro ha
          rw [hf.1]
          exact h.1 (hf.2 ▸ ha)
        · rw [hf.1]; exact h.2
  | rejected =>
      rcases hc : p.1.curEl with _ | el
      · simpa [stepPb2, hc] using h
      · simp only [stepPb2, hc, playRejected2]
        have hf := audioError2_frame p.1 el p.2
        refine ⟨?_, ?_⟩
        · intro ha
          rw [hf.1]
          exact h.1 (hf.2 ▸ ha)
        · rw [hf.1]; exact h.2
  | fbEnded =>
      rcases hc : p.1.curEl with _ | el
      · simpa [stepPb2, hc] using h
      · simp only [stepPb2, hc]
        refine ⟨?_, erase_length_le_one h.2 el⟩
        intro ha
        simp only at ha
        rw [h.1 ha]
        rfl
  | fbFailed =>
      rcases hc : p.1.curEl with _ | el
      · simpa [stepPb2, hc] using h
      · simp only [stepPb2, hc]
        refine ⟨?_, erase_length_le_one h.2 el⟩
        intro ha
        simp only at ha
        rw [h.1 ha]
        rfl
  | escape =>
      simp only [stepPb2]
      have := stopAudio_marks_nil p.1 h
      exact ⟨fun _ => this.1, by rw [this.1]; exact Nat.zero_le 1⟩

theorem pb2Inv_foldl (p : ViewState × Bool) (h : pbInv p.1)
    (evs : List Pb2Event) : pbInv (evs.foldl stepPb2 p).1 := by
  induction evs generalizing p with
  | nil => exact h
  | cons e es ih => exact ih (stepPb2 p e) (stepPb2_inv p e h)

/-- C3: starting new playback first releases the prior audio handle (both
variants), hides any visible video (variant 1; variant 2 has no video code)
and — given the playback invariant, which holds along every event sequence
from the initial state — unmarks every previously marked element, before
marking the clicked element: variant 1's `playAudio` is exactly the
marking/creation body applied after `stopAudio` and `stopVideo`, and
variant 2's `playAudio` is invariant under pre-composing its own
`stopAudio`.  After either call, and after every sequence of playback
events of either variant from the initial state, at most one element bears
the `playing` mark (and `state.audio`, a single `Option` field in which
neither variant stores the fallback element, holds at most one handle by
construction). -/
theorem playback_single_active (s : ViewState) (el h : Nat) :
    (pbInv s →
      (stopVideo (stopAudio s)).audio = none ∧
      (stopVideo (stopAudio s)).marks = [] ∧
      (stopVideo (stopAudio s)).videoShown = false ∧
      playAudio1 s el h = playAudioAfterStops (stopVideo (stopAudio s)) el h ∧
      (playAudio1 s el h).marks.length ≤ 1) ∧
    (∀ evs : List PbEvent, (evs.foldl stepPb initState).marks.length ≤ 1) ∧
    (pbInv s →
      (stopAudio s).audio = none ∧
      (stopAudio s).marks = [] ∧
      playAudio2 s el h = playAudio2 (stopAudio s) el h ∧
      (playAudio2 s el h).1.marks = [el] ∧
      (playAudio2 s el h).1.marks.length ≤ 1) ∧
    (∀ evs : List Pb2Event,
      ((evs.foldl stepPb2 (initState, false)).1).marks.length ≤ 1) := by
  refine ⟨?_, ?_, ?_, ?_⟩
  · intro hinv
    have hs := stopAudio_marks_nil s hinv
    refine ⟨by simpa [stopVideo] using hs.2, by simpa [stopVideo] using hs.1,
      rfl, rfl, (playAudio1_marks s el h hinv).1⟩
  · intro evs
    exact (pbInv_foldl initState (by decide) evs).2
  · intro hinv
    have hs := stopAudio_marks_nil s hinv
    have hm := playAudio2_marks s el h hinv
    exact ⟨hs.2, hs.1, playAudio2_factor s el h, hm, by simp [hm]⟩
  · intro evs
    exact (pb2Inv_foldl (initState, false) (by decide) evs).2

/-- Witness for C3: a concrete state holding an audio handle with one marked
element; a new click in either variant releases it and leaves exactly the
clicked element marked. -/
theorem playback_single_active_witness :
    pbInv { initState with audio := some 0, marks := [5], curEl := some 5 } ∧
      (playAudio1 { initState with audio := some 0, marks := [5], curEl := some 5 }
          7 1).marks.length ≤ 1 ∧
      (playAudio2 { initState with audio := some 0, marks := [5], curEl := some 5 }
          7 1).1.marks = [7] := by
  refine ⟨by decide, ?_, ?_⟩
  · exact ((playback_single_active
      { initState with audio := some 0, marks := [5], curEl := some 5 } 7 1).1
        (by decide)).2.2.2.2
  · exact ((playback_single_active
      { initState with audio := some 0, marks := [5], curEl := some 5 } 7 1).2.2.1
        (by decide)).2.2.2.1

/-- C5 counterexample: in the second script variant, a rejected `play()`
right after `playAudio` (closure flag `played = false`) issues a second
request for the audio resource through the hidden fallback element and
leaves the clicked element marked `playing` — the claim's "clears the
marker, no retry" fails on this variant. -/
theorem play_rejection_counterexample :
    ((playRejected2 (playAudio2 initState 7 1).1 7 (playAudio2 initState 7 1).2).1.requests
        = (playAudio2 initState 7 1).1.requests + 1) ∧
      7 ∈ (playRejected2 (playAudio2 initState 7 1).1 7
            (playAudio2 initState 7 1).2).1.marks := by
  decide

/-- C5, amended: in the first script variant a rejected `play()` removes the
`playing` class from the clicked element and changes nothing else — no field
of the state moves, and in particular no further audio request is issued; in
the second variant the rejection handler routes to `onerror`, which (when no
fallback ran yet) issues exactly one fallback request without clearing the
mark, and does nothing at all on a second failure. -/
theorem play_rejection_no_retry (s : ViewState) (el : Nat) :
    ((playRejected1 s el).marks = s.marks.erase el ∧
      (playRejected1 s el).requests = s.requests ∧
      (playRejected1 s el).audio = s.audio ∧
      (playRejected1 s el).videoShown = s.videoShown ∧
      (playRejected1 s el).currentPage = s.currentPage ∧
      (playRejected1 s el).language = s.language ∧
      (playRejected1 s el).pages = s.pages ∧
      (playRejected1 s el).animating = s.animating ∧
      (playRejected1 s el).curEl = s.curEl) ∧
    ((playRejected2 s el false).1.requests = s.requests + 1 ∧
      (playRejected2 s el false).1.marks = s.marks ∧
      (playRejected2 s el false).2 = true ∧
      playRejected2 s el true = (s, true)) := by
  refine ⟨⟨rfl, rfl, rfl, rfl, rfl, rfl, rfl, rfl, rfl⟩, rfl, rfl, rfl, rfl⟩

/-! ## Audio end: decoupled video lifetime (variant 1) -/

/-- C6: when the audio `ended` event fires in the first variant, the handler
removes the `playing` mark from the clicked element and changes nothing
else — the audio handle, the video visibility, the request count and all
navigation state are untouched (in particular the video is not stopped,
hidden or reset); the video leaves the screen through its own
`ended`/`error` listeners, both of which are exactly `stopVideo`. -/
theorem audio_end_leaves_video (s : ViewState) (el : Nat) :
    ((audioEnded1 s el).marks = s.marks.erase el ∧
      (audioEnded1 s el).videoShown = s.videoShown ∧
      (audioEnded1 s el).audio = s.audio ∧
      (audioEnded1 s el).requests = s.requests ∧
      (audioEnded1 s el).currentPage = s.currentPage ∧
      (audioEnded1 s el).totalPages = s.totalPages ∧
      (audioEnded1 s el).language = s.language ∧
      (audioEnded1 s el).showEnglish = s.showEnglish ∧
      (audioEnded1 s el).pages = s.pages ∧
      (audioEnded1 s el).animating = s.animating ∧
      (audioEnded1 s el).curEl = s.curEl) ∧
    (handleVideoEnd s = stopVideo s ∧
      handleVideoError s = stopVideo s ∧
      (handleVideoEnd s).videoShown = false) := by
  exact ⟨⟨rfl, rfl, rfl, rfl, rfl, rfl, rfl, rfl, rfl, rfl, rfl⟩, rfl, rfl, rfl⟩

/-! ## Page renderer

DOM element trees are embedded as `Elem` trees carrying the tag, the class
tokens, and the child elements (text nodes, attributes and event handlers
carry no structure the claims need and are omitted). -/

inductive Elem where
  | el : String → List String → List Elem → Elem

mutual
/-- Number of descendant elements (the element itself included) with the
given tag. -/
def countTag (t : String) : Elem → Nat
  | .el tg _ cs => (if tg = t then 1 else 0) + countTagL t cs
/-- `countTag` summed over a list of element trees. -/
def countTagL (t : String) : List Elem → Nat
  | [] => 0
  | c :: cs => countTag t c + countTagL t cs
end

/-- Whether the element's own class list holds the given token. -/
def hasClass (c : String) : Elem → Bool
  | .el _ cls _ => cls.contains c

/-- Number of elements of a container's child list bearing the class. -/
def countClassTop (c : String) (es : List Elem) : Nat :=
  (es.filter (hasClass c)).length

/-- `sentence.text.split(/\s+/)` of `renderWords` (variant 1 line 314,
variant 2 line 744): whitespace-run splitting, embedded as splitting on
spaces and dropping empty tokens. -/
def splitWords (text : String) : List String :=
  (text.splitOn " ").filter (fun w => ¬ w = "")

/-- One `span.word-clickable` of `renderWords` (its click handler invokes
`playAudio` with the cleaned word; the separating text nodes are not
elements). -/
def wordSpan (_w : String) : Elem := Elem.el "span" ["word-clickable"] []

/-- The `div.sentence-text` line of a sentence block: word-clickable spans
when `audio_granularity === 'word' && words?.length > 0`, else one
sentence-clickable span (variant 1 lines 267-277, variant 2 lines 693-702). -/
def sentenceLine (sent : Sentence) : Elem :=
  Elem.el "div" ["sentence-text"]
    (if sent.audio_granularity = "word" ∧ 0 < (sent.words.getD []).length then
      (splitWords sent.text).map wordSpan
    else [Elem.el "span" ["sentence-clickable"] []])

/-- One `div.sentence-block` (identical structure in variant 1 lines 259-293
and variant 2 lines 689-718): speaker label, sentence line, and — when the
translation toggle is on, the language is not English and
`sentences.english?.[i]` exists — a translation line. -/
def sentenceBlock (showEnglish : Bool) (lang : String) (pd : PageRecord)
    (i : Nat) (sent : Sentence) : Elem :=
  Elem.el "div" ["sentence-block"]
    ([Elem.el "div" ["speaker-label"] [], sentenceLine sent] ++
      (if showEnglish = true ∧ ¬ lang = "english" then
        match (lookupKV pd.sentences "english").bind (fun l => l.get? i) with
        | some _ => [Elem.el "div" ["translation-text"] []]
        | none => []
      else []))

/-- The `div.page-left` of variant 1 (lines 195-244): image container with
the always-present `img.storybook-image`, a hidden `video.storybook-video`
exactly when the page record has a `video` field, and the sticker badge. -/
def pageLeft1 (pd : PageRecord) : Elem :=
  Elem.el "div" ["page-left"]
    [Elem.el "div" ["image-container"]
      ([Elem.el "img" ["storybook-image"] []] ++
        (match pd.video with
          | some _ => [Elem.el "video" ["storybook-video"] []]
          | none => [])),
     Elem.el "div" ["sticker-container"] [Elem.el "div" ["sticker-number"] []]]

/-- The `div.page-left` of variant 2 (lines 661-675): image container with
the image only — variant 2 never creates a video element — and the sticker
badge. -/
def pageLeft2 (_pd : PageRecord) : Elem :=
  Elem.el "div" ["page-left"]
    [Elem.el "div" ["image-container"] [Elem.el "img" ["storybook-image"] []],
     Elem.el "div" ["sticker-container"] [Elem.el "div" ["sticker-number"] []]]

/-- The `div.page-right` common to both variants: text container with the
sentence blocks, then the audio-instructions box. -/
def pageRight (blocks : List Elem) : Elem :=
  Elem.el "div" ["page-right"]
    [Elem.el "div" ["text-container"] blocks,
     Elem.el "div" ["audio-instructions"] []]

/-- `renderPage(animDirection)` of variant 1 (lines 174-310), as a function
from the view state and the current `#book-container` children to the new
children: the container is emptied only for non-animated renders; a missing
page record, a missing sentence list for the active language, or an empty
one, returns early appending nothing; otherwise exactly one `div.page` is
appended. -/
def renderPage1 (s : ViewState) (book : List Elem) (animDir : Option String) :
    List Elem :=
  let book1 := if animDir.isNone then [] else book
  match s.pages.find? (fun p => p.page == s.currentPage) with
  | none => book1
  | some pd =>
      match lookupKV pd.sentences s.language with
      | none => book1
      | some sents =>
          if sents.length = 0 then book1
          else
            let blocks := sents.enum.map
              (fun q => sentenceBlock s.showEnglish s.language pd q.1 q.2)
            let pageClasses := match animDir with
              | some d => ["page", "flip-in-" ++ d]
              | none => ["page"]
            book1 ++ [Elem.el "div" pageClasses [pageLeft1 pd, pageRight blocks]]

/-- `renderPage(animDirection)` of variant 2 (lines 643-740): the container
is always emptied first; only a missing page record returns early; a missing
sentence list is only logged (`sentences?.forEach`) and the page — image,
sticker, empty text container — is still appended. -/
def renderPage2 (s : ViewState) (animDir : Option String) : List Elem :=
  match s.pages.find? (fun p => p.page == s.currentPage) with
  | none => []
  | some pd =>
      let blocks := match lookupKV pd.sentences s.language with
        | none => []
        | some sents => sents.enum.map
            (fun q => sentenceBlock s.showEnglish s.language pd q.1 q.2)
      let pageClasses := ["page", "active"] ++
        (if animDir = some "next" then ["flip-in-right"] else []) ++
        (if animDir = some "prev" then ["flip-in-left"] else [])
      [Elem.el "div" pageClasses [pageLeft2 pd, pageRight blocks]]

theorem countTag_el (t tg : String) (cls : List String) (cs : List Elem) :
    countTag t (.el tg cls cs) = (if tg = t then 1 else 0) + countTagL t cs := rfl

theorem countTagL_nil (t : String) : countTagL t [] = 0 := rfl

theorem countTagL_cons (t : String) (c : Elem) (cs : List Elem) :
    countTagL t (c :: cs) = countTag t c + countTagL t cs := rfl

theorem countTagL_append (t : String) (as bs : List Elem) :
    countTagL t (as ++ bs) = countTagL t as + countTagL t bs := by
  induction as with
  | nil => simp [countTagL_nil]
  | cons a as ih => simp [countTagL_cons, ih]; omega

theorem countTagL_wordSpans (t : String) (hs : ¬ "span" = t) (ws : List String) :
    countTagL t (ws.map wordSpan) = 0 := by
  induction ws with
  | nil => simp [countTagL_nil]
  | cons w ws ih => simp [countTagL_cons, wordSpan, countTag_el, countTagL_nil, hs, ih]

theorem countTag_sentenceLine (t : String) (hd : ¬ "div" = t)
    (hs : ¬ "span" = t) (sent : Sentence) :
    countTag t (sentenceLine sent) = 0 := by
  unfold sentenceLine
  split
  · simp [countTag_el, hd, countTagL_wordSpans t hs]
  · simp [countTag_el, countTagL_cons, countTagL_nil, hd, hs]

theorem countTag_sentenceBlock (t : String) (hd : ¬ "div" = t)
    (hs : ¬ "span" = t) (b : Bool) (lang : String) (pd : PageRecord)
    (i : Nat) (sent : Sentence) :
    countTag t (sentenceBlock b lang pd i sent) = 0 := by
  have hline := countTag_sentenceLine t hd hs sent
  unfold sentenceBlock
  split
  · rcases hx : (lookupKV pd.sentences "english").bind (fun l => l.get? i) with _ | e
    · simp [hx, countTag_el, countTagL_cons, countTagL_nil, countTagL_append,
        hd, hline]
    · simp [hx, countTag_el, countTagL_cons, countTagL_nil, countTagL_append,
        hd, hline]
  · simp [countTag_el, countTagL_cons, countTagL_nil, countTagL_append,
      hd, hline]

theorem countTagL_blocks (t : String) (hd : ¬ "div" = t) (hs : ¬ "span" = t)
    (b : Bool) (lang : String) (pd : PageRecord)
    (l : List (Nat × Sentence)) :
    countTagL t (l.map (fun q => sentenceBlock b lang pd q.1 q.2)) = 0 := by
  induction l with
  | nil => simp [countTagL_nil]
  | cons q l ih =>
      simp [countTagL_cons, countTag_sentenceBlock t hd hs, ih]

theorem countTag_pageRight (t : String) (hd : ¬ "div" = t)
    (blocks : List Elem) (hb : countTagL t blocks = 0) :
    countTag t (pageRight blocks) = 0 := by
  simp [pageRight, countTag_el, countTagL_cons, countTagL_nil, hb, hd]

theorem countTag_pageLeft1_img (pd : PageRecord) :
    countTag "img" (pageLeft1 pd) = 1 := by
  unfold pageLeft1
  rcases hv : pd.video with _ | v <;>
    simp [countTag_el, countTagL_cons, countTagL_nil, countTagL_append]

theorem countTag_pageLeft1_video (pd : PageRecord) :
    countTag "video" (pageLeft1 pd) = if pd.video.isSome then 1 else 0 := by
  unfold pageLeft1
  rcases hv : pd.video with _ | v <;>
    simp [countTag_el, countTagL_cons, countTagL_nil, countTagL_append]

theorem countTag_pageLeft2 (t : String) (hd : ¬ "div" = t) (pd : PageRecord) :
    countTag t (pageLeft2 pd) = if "img" = t then 1 else 0 := by
  simp [pageLeft2, countTag_el, countTagL_cons, countTagL_nil, hd]

theorem hasClass_el (c tg : String) (cls : List String) (cs : List Elem) :
    hasClass c (.el tg cls cs) = cls.contains c := rfl

/-- C2, amended: in the first script variant, rendering a page whose record
exists AND carries a non-empty sentence list for the active language
produces exactly one `div.page` child holding exactly one image element and
a video element precisely when the record declares a video asset; in the
second variant, any page whose record exists produces exactly one `div.page`
child with exactly one image element but never a video element, whatever the
record declares. -/
theorem render_page_structure :
    (∀ (s : ViewState) (book : List Elem) (pd : PageRecord)
        (sents : List Sentence),
      s.pages.find? (fun p => p.page == s.currentPage) = some pd →
      lookupKV pd.sentences s.language = some sents →
      ¬ sents.length = 0 →
        countClassTop "page" (renderPage1 s book none) = 1 ∧
        countTagL "img" (renderPage1 s book none) = 1 ∧
        countTagL "video" (renderPage1 s book none) =
          (if pd.video.isSome then 1 else 0)) ∧
    (∀ (s : ViewState) (pd : PageRecord),
      s.pages.find? (fun p => p.page == s.currentPage) = some pd →
        countClassTop "page" (renderPage2 s none) = 1 ∧
        countTagL "img" (renderPage2 s none) = 1 ∧
        countTagL "video" (renderPage2 s none) = 0) := by
  constructor
  · intro s book pd sents hf hl hne
    have hright_img := countTag_pageRight "img" (by decide)
      (sents.enum.map (fun q => sentenceBlock s.showEnglish s.language pd q.1 q.2))
      (countTagL_blocks "img" (by decide) (by decide) _ _ _ _)
    have hright_vid := countTag_pageRight "video" (by decide)
      (sents.enum.map (fun q => sentenceBlock s.showEnglish s.language pd q.1 q.2))
      (countTagL_blocks "video" (by decide) (by decide) _ _ _ _)
    have hleft_img := countTag_pageLeft1_img pd
    have hleft_vid := countTag_pageLeft1_video pd
    simp only [renderPage1, hf, hl, hne, Option.isNone_none, if_true, if_false,
      List.nil_append]
    refine ⟨?_, ?_, ?_⟩
    · simp [countClassTop, hasClass_el, List.filter]
    · simp [countTagL_cons, countTagL_nil, countTag_el, hleft_img, hright_img]
    · simp [countTagL_cons, countTagL_nil, countTag_el, hleft_vid, hright_vid]
  · intro s pd hf
    simp only [renderPage2, hf]
    rcases hl : lookupKV pd.sentences s.language with _ | sents
    · have hright_img := countTag_pageRight "img" (by decide) [] rfl
      have hright_vid := countTag_pageRight "video" (by decide) [] rfl
      refine ⟨?_, ?_, ?_⟩
      · simp [countClassTop, hasClass_el, List.filter]
      · simp [countTagL_cons, countTagL_nil, countTag_el, hright_img,
          countTag_pageLeft2 "img" (by decide) pd]
      · simp [countTagL_cons, countTagL_nil, countTag_el, hright_vid,
          countTag_pageLeft2 "video" (by decide) pd]
    · have hright_img := countTag_pageRight "img" (by decide)
        (sents.enum.map (fun q => sentenceBlock s.showEnglish s.language pd q.1 q.2))
        (countTagL_blocks "img" (by decide) (by decide) _ _ _ _)
      have hright_vid := countTag_pageRight "video" (by decide)
        (sents.enum.map (fun q => sentenceBlock s.showEnglish s.language pd q.1 q.2))
        (countTagL_blocks "video" (by decide) (by decide) _ _ _ _)
      refine ⟨?_, ?_, ?_⟩
      · simp [countClassTop, hasClass_el, List.filter]
      · simp [countTagL_cons, countTagL_nil, countTag_el, hright_img,
          countTag_pageLeft2 "img" (by decide) pd]
      · simp [countTagL_cons, countTagL_nil, countTag_el, hright_vid,
          countTag_pageLeft2 "video" (by decide) pd]

/-- A sentence-level sentence used by the concrete counterexample states. -/
def sentenceHello : Sentence :=
  { id := "s1", speaker := "Narrator", text := "Hello there",
    audio_granularity := "sentence", words := none }

/-- A page record that declares a video asset and has English sentences. -/
def pageWithVideo : PageRecord :=
  { page := 1, image := "page1.jpg", video := some "page1.mp4",
    sticker_number := 1, sentences := [("english", [sentenceHello])] }

/-- View state on (valid) page 1 of 1 whose record is `pageWithVideo`. -/
def stateWithVideo : ViewState := { initState with pages := [pageWithVideo] }

/-- C2 counterexample: on a valid page whose record declares a video asset,
the second variant's renderer produces no video element at all, refuting
"contains a video element if and only if the page record declares a video
asset" for `renderPage` as shipped in that variant. -/
theorem render_page_structure_counterexample :
    stateWithVideo.currentPage = 1 ∧ stateWithVideo.totalPages = 1 ∧
    stateWithVideo.pages.find?
        (fun p => p.page == stateWithVideo.currentPage) = some pageWithVideo ∧
    pageWithVideo.video.isSome = true ∧
    countTagL "video" (renderPage2 stateWithVideo none) = 0 := by
  exact ⟨rfl, rfl, rfl, rfl, rfl⟩

/-- Witness for C2's amended theorem at the concrete video page: variant 1
renders one page element, one image and one video. -/
theorem render_page_structure_witness :
    countClassTop "page" (renderPage1 stateWithVideo [] none) = 1 ∧
    countTagL "img" (renderPage1 stateWithVideo [] none) = 1 ∧
    countTagL "video" (renderPage1 stateWithVideo [] none) = 1 := by
  have h := render_page_structure.1 stateWithVideo [] pageWithVideo
    [sentenceHello] rfl rfl (by decide)
  exact ⟨h.1, h.2.1, by simpa using h.2.2⟩

/-- C7, amended: in the first variant a missing page record, a missing
sentence list for the active language, or an empty one all abort the render
early without appending any page element (the emptied — or, mid-animation,
untouched — container is returned unchanged); in the second variant only the
missing page record aborts, and the container is left empty. -/
theorem render_missing_data_silent :
    (∀ (s : ViewState) (book : List Elem) (dir : Option String),
      s.pages.find? (fun p => p.page == s.currentPage) = none →
        renderPage1 s book dir = (if dir.isNone then [] else book) ∧
        renderPage2 s dir = []) ∧
    (∀ (s : ViewState) (book : List Elem) (dir : Option String)
        (pd : PageRecord),
      s.pages.find? (fun p => p.page == s.currentPage) = some pd →
      lookupKV pd.sentences s.language = none →
        renderPage1 s book dir = (if dir.isNone then [] else book)) ∧
    (∀ (s : ViewState) (book : List Elem) (dir : Option String)
        (pd : PageRecord) (sents : List Sentence),
      s.pages.find? (fun p => p.page == s.currentPage) = some pd →
      lookupKV pd.sentences s.language = some sents →
      sents.length = 0 →
        renderPage1 s book dir = (if dir.isNone then [] else book)) := by
  refine ⟨?_, ?_, ?_⟩
  · intro s book dir hf
    constructor
    · simp [renderPage1, hf]
    · simp [renderPage2, hf]
  · intro s book dir pd hf hl
    simp [renderPage1, hf, hl]
  · intro s book dir pd sents hf hl hz
    simp [renderPage1, hf, hl, hz]

/-- View state whose active language has no sentence list on the (existing)
record of the current page. -/
def stateWrongLang : ViewState :=
  { initState with language := "hindi", pages := [pageWithVideo] }

/-- C7 counterexample: with the page record present but no sentence list for
the active language, the second variant does NOT leave a blank page — it
still appends a full page element (image, sticker, empty text container),
refuting the claim's "aborts early ... leaving a blank page" for that
variant. -/
theorem render_missing_data_counterexample :
    stateWrongLang.pages.find?
        (fun p => p.page == stateWrongLang.currentPage) = some pageWithVideo ∧
    lookupKV pageWithVideo.sentences stateWrongLang.language = none ∧
    countClassTop "page" (renderPage2 stateWrongLang none) = 1 ∧
    countTagL "img" (renderPage2 stateWrongLang none) = 1 := by
  exact ⟨rfl, rfl, rfl, rfl⟩

/-- Witness for C7's amended theorem: on an empty dataset variant 1's
non-animated render leaves the book container empty. -/
theorem render_missing_data_silent_witness :
    renderPage1 initState [] none = [] ∧ renderPage2 initState none = [] := by
  have h := render_missing_data_silent.1 initState [] none rfl
  exact ⟨by simpa using h.1, h.2⟩

/-! ## Fetch layer (`fetchPages`)

A JSON response body for `/api/sentences` may lack the `pages` array or the
`metadata` object, and the `metadata` object may lack `total_pages`
(`none` embeds the JavaScript `undefined`).  `fetchPages` touches exactly the
`state.pages` and `state.totalPages` fields, modelled as the option-valued
`FetchState` (option-valued because variant 2 can assign `undefined` to
`state.pages`, and both variants can assign `undefined` to
`state.totalPages`). -/

/-- JSON values (numbers are embedded as integers; the serialization
functions are abstract so finer number distinctions play no role). -/
inductive Json where
  | null : Json
  | bool : Bool → Json
  | num : Int → Json
  | str : String → Json
  | arr : List Json → Json
  | obj : List (String × Json) → Json

theorem lookupKV_insertKV_self {α : Type} (fs : List (String × α))
    (k : String) (v : α) : lookupKV (insertKV fs k v) k = some v := by
  induction fs with
  | nil => simp [insertKV, lookupKV]
  | cons e fs ih =>
      rcases e with ⟨k', v'⟩
      by_cases hk : k' = k
      · simp [insertKV, lookupKV, hk]
      · simp [insertKV, lookupKV, hk, ih]

/-- `StorageHelper.set(key, value)`: store `JSON.stringify(value)` under the
key and report success (the storage-failure catch branch, which returns
`false`, is the "underlying storage does not fail" assumption and is not
taken here). -/
def StorageHelper_set (stringify : Json → String)
    (store : List (String × String)) (k : String) (v : Json) :
    List (String × String) × Bool :=
  (insertKV store k (stringify v), true)

/-- `StorageHelper.get(key, defaultValue = null)`: read the item; a missing
key (`getItem` returns `null`) or an empty string (falsy) yields the
default, as does a parse failure (`JSON.parse` throws, the catch returns the
default). -/
def StorageHelper_get (parseJson : String → Option Json)
    (store : List (String × String)) (k : String) (dflt : Option Json) :
    Option Json :=
  match lookupKV store k with
  | none => dflt
  | some item =>
      if item = "" then dflt
      else match parseJson item with
        | some v => some v
        | none => dflt

/-- C8: for any serializer pair satisfying the JavaScript JSON contract on
`v` — parsing the stringified value restores it, and the stringified form is
a non-empty string (as `JSON.stringify` yields for every JSON-serializable
value) — `StorageHelper.set(k, v)` followed by `StorageHelper.get(k)`
returns exactly `v`, whatever was previously stored under any key. -/
theorem storage_roundtrip (stringify : Json → String)
    (parseJson : String → Option Json) (store : List (String × String))
    (k : String) (v : Json) (dflt : Option Json)
    (hparse : parseJson (stringify v) = some v)
    (hne : ¬ stringify v = "") :
    StorageHelper_get parseJson (StorageHelper_set stringify store k v).1 k dflt
      = some v := by
  simp [StorageHelper_get, StorageHelper_set,
    lookupKV_insertKV_self store k (stringify v), hne, hparse]

/-- Witness for C8 with a concrete one-value serializer on an empty store. -/
theorem storage_roundtrip_witness :
    StorageHelper_get (fun _ => some Json.null)
        (StorageHelper_set (fun _ => "null") [] "userPreferences" Json.null).1
        "userPreferences" none
      = some Json.null := by
  exact storage_roundtrip (fun _ => "null") (fun _ => some Json.null) []
    "userPreferences" Json.null none rfl (by decide)

/-! ## Config store (`config.js`)

Configuration values are nested JavaScript objects with primitive leaves;
the scripts run in sloppy (non-strict) mode, so a property write whose
receiver is a primitive is silently discarded, and a property read off a
primitive yields `undefined` (special string properties such as `length`
are not exercised by any dotted path considered here and are not modelled).
A property access on `undefined` itself raises a TypeError. -/

/-- A configuration value: a primitive leaf or a nested object. -/
inductive CVal where
  | str : String → CVal
  | num : Int → CVal
  | bool : Bool → CVal
  | obj : List (String × CVal) → CVal

/-- `value[key]` on a configuration value: key lookup on an object,
`undefined` on a primitive. -/
def cfgIndex : CVal → String → Option CVal
  | .obj fs, k => lookupKV fs k
  | _, _ => none

/-- `path.split('.')` at the character level (fully structural so concrete
paths evaluate): splitting on `'.'`, keeping empty segments, as the
JavaScript string split does. -/
def splitDotChars : List Char → List (List Char)
  | [] => [[]]
  | c :: cs =>
      if c = '.' then [] :: splitDotChars cs
      else match splitDotChars cs with
        | [] => [[c]]
        | w :: ws => (c :: w) :: ws

/-- `path.split('.')` on strings. -/
def splitDots (s : String) : List String :=
  (splitDotChars s.toList).map (fun cs => String.mk cs)

/-- `keys.pop()`'s return value: the last key of the split path (the
fallback is never reached, a split is non-empty). -/
def lastKeyD : List String → String → String
  | [], d => d
  | [a], _ => a
  | _ :: rest, d => lastKeyD rest d

/-- The key walk of `getConfig` (config.js lines 132-142): step through the
keys; `if (value[key] === undefined) return null` — `none` embeds both the
`null` return and `undefined`. -/
def getConfigGo : CVal → List String → Option CVal
  | v, [] => some v
  | v, k :: ks =>
      match cfgIndex v k with
      | none => none
      | some v' => getConfigGo v' ks

/-- `getConfig(path)` on a configuration value. -/
def getConfig (c : CVal) (path : String) : Option CVal :=
  getConfigGo c (splitDots path)

/-- The key walk of `setConfig` (config.js lines 145-156) over the keys
remaining before the popped last key, returning the updated configuration
and whether a TypeError was raised:
`if (obj[key] === undefined) obj[key] = {}; obj = obj[key];` descends,
creating missing levels; when `obj` is a primitive the guarded assignment is
silently discarded, `obj` becomes `undefined`, and the next property access
— the final `obj[lastKey] = value` included — throws; a primitive receiver
of the final assignment alone is a silent no-op. -/
def setConfigGo : CVal → List String → String → CVal → CVal × Bool
  | .obj fs, [], last, v => (.obj (insertKV fs last v), false)
  | c, [], _, _ => (c, false)
  | .obj fs, k :: ks, last, v =>
      let child := match lookupKV fs k with
        | none => .obj []
        | some c => c
      let r := setConfigGo child ks last v
      (.obj (insertKV fs k r.1), r.2)
  | c, _ :: _, _, _ => (c, true)

/-- `setConfig(path, value)` on a configuration value: split the path, pop
the last key, walk, assign. -/
def setConfig (c : CVal) (path : String) (v : CVal) : CVal × Bool :=
  let keys := splitDots path
  setConfigGo c keys.dropLast (lastKeyD keys "") v

/-- Whether every key of the walk, up to the final assignment's receiver,
resolves to an object or is absent (absent levels are created as fresh
objects, which accept everything below them). -/
def setPathOk : CVal → List String → Bool
  | .obj _, [] => true
  | _, [] => false
  | .obj fs, k :: ks =>
      (match lookupKV fs k with
        | none => true
        | some c => setPathOk c ks)
  | _, _ :: _ => false

/-- Whether the dotted path's target is present in the configuration. -/
def hasPathGo : CVal → List String → Bool
  | _, [] => true
  | v, k :: ks =>
      match cfgIndex v k with
      | none => false
      | some v' => hasPathGo v' ks

theorem setPathOk_emptyObj (ks : List String) :
    setPathOk (.obj []) ks = true := by
  cases ks with
  | nil => rfl
  | cons k ks => simp [setPathOk, lookupKV]

theorem setConfigGo_roundtrip (ks : List String) (c : CVal) (last : String)
    (v : CVal) (hok : setPathOk c ks = true) :
    (setConfigGo c ks last v).2 = false ∧
      getConfigGo (setConfigGo c ks last v).1 (ks ++ [last]) = some v := by
  induction ks generalizing c with
  | nil =>
      cases c with
      | obj fs =>
          refine ⟨rfl, ?_⟩
          simp [setConfigGo, getConfigGo, cfgIndex, lookupKV_insertKV_self]
      | str a => exact absurd hok (by simp [setPathOk])
      | num a => exact absurd hok (by simp [setPathOk])
      | bool a => exact absurd hok (by simp [setPathOk])
  | cons k ks ih =>
      cases c with
      | obj fs =>
          rcases hl : lookupKV fs k with _ | c'
          · have hrec := ih (.obj []) (setPathOk_emptyObj ks)
            refine ⟨?_, ?_⟩
            · simpa [setConfigGo, hl] using hrec.1
            · simpa [setConfigGo, getConfigGo, cfgIndex, hl,
                lookupKV_insertKV_self] using hrec.2
          · have hok' : setPathOk c' ks = true := by
              simpa [setPathOk, hl] using hok
            have hrec := ih c' hok'
            refine ⟨?_, ?_⟩
            · simpa [setConfigGo, hl] using hrec.1
            · simpa [setConfigGo, getConfigGo, cfgIndex, hl,
                lookupKV_insertKV_self] using hrec.2
      | str a => exact absurd hok (by simp [setPathOk])
      | num a => exact absurd hok (by simp [setPathOk])
      | bool a => exact absurd hok (by simp [setPathOk])

theorem lastKeyD_append_single (l : List String) (a d : String) :
    lastKeyD (l ++ [a]) d = a := by
  induction l generalizing d with
  | nil => rfl
  | cons x xs ih =>
      cases xs with
      | nil => simp [lastKeyD]
      | cons y ys => simpa [lastKeyD] using ih d

/-- C9, amended: when no key on the dotted path up to the final assignment's
receiver resolves to a primitive (every traversed level is an object or is
created), `setConfig(p, v)` raises nothing, creates the missing intermediate
levels and `getConfig(p)` afterwards returns `v`.  Moreover `getConfig`
returns null exactly on the paths whose target is absent.  (The claim's
quantification over paths crossing primitive-valued segments fails: there
the sloppy-mode write is silently discarded or throws, and `getConfig`
returns null, never `v`.) -/
theorem config_get_set (c : CVal) (p : String) (v : CVal) :
    (∀ ks last, splitDots p = ks ++ [last] → setPathOk c ks = true →
      (setConfig c p v).2 = false ∧
        getConfig (setConfig c p v).1 p = some v) ∧
    (∀ ks, getConfigGo c ks = none ↔ hasPathGo c ks = false) := by
  constructor
  · intro ks last hsplit hok
    have hdrop : (splitDots p).dropLast = ks := by
      rw [hsplit]; exact List.dropLast_concat
    have hmain := setConfigGo_roundtrip ks c last v hok
    constructor
    · simpa [setConfig, hdrop, hsplit, lastKeyD_append_single] using hmain.1
    · simpa [getConfig, setConfig, hdrop, hsplit, lastKeyD_append_single]
        using hmain.2
  · intro ks
    induction ks generalizing c with
    | nil => simp [getConfigGo, hasPathGo]
    | cons k ks ih =>
        rcases hx : cfgIndex c k with _ | v'
        · simp [getConfigGo, hasPathGo, hx]
        · simpa [getConfigGo, hasPathGo, hx] using ih v'

/-- The default `CONFIG` object literal of `config.js` lines 24-91
(`api.baseUrl` is environment-detected at load; its local default stands in,
and the fractional `volume: 1.0` leaves are embedded as the integer 1 —
no claim inspects either value). -/
def CONFIGv : CVal := .obj
  [("api", .obj [("baseUrl", .str "http://localhost:8000"),
    ("timeout", .num 10000), ("retryAttempts", .num 3)]),
   ("app", .obj [("defaultLanguage", .str "english"),
    ("enableKeyboardNavigation", .bool true),
    ("enableTranslationToggle", .bool true),
    ("autoPlayNextPage", .bool false),
    ("pageTransitionDuration", .num 500), ("enableVideo", .bool true)]),
   ("audio", .obj [("preloadNext", .bool true), ("volume", .num 1),
    ("fadeInDuration", .num 100), ("fadeOutDuration", .num 100)]),
   ("video", .obj [("preloadNext", .bool true), ("volume", .num 1),
    ("controls", .bool false), ("autoplay", .bool false),
    ("loop", .bool false), ("fadeInDuration", .num 200),
    ("fadeOutDuration", .num 200)]),
   ("ui", .obj [("theme", .str "light"), ("animations", .bool true),
    ("showPageNumbers", .bool true), ("showStickerNumbers", .bool true)]),
   ("performance", .obj [("lazyLoadImages", .bool false),
    ("cacheAudio", .bool true), ("preloadPages", .num 1),
    ("preloadVideos", .bool true)]),
   ("accessibility", .obj [("highContrast", .bool false),
    ("largeText", .bool false), ("reduceMotion", .bool false)]),
   ("debug", .obj [("enabled", .bool false), ("logLevel", .str "info"),
    ("showNetworkRequests", .bool false)])]

/-- C9 counterexample: on the shipped default configuration the path
`ui.theme.x` crosses the primitive `ui.theme = 'light'`; `setConfig` raises
nothing but its sloppy-mode final assignment is silently discarded, and
`getConfig` afterwards returns null, not the stored value — refuting the
claim's quantification over all paths. -/
theorem config_get_set_counterexample :
    (setConfig CONFIGv "ui.theme.x" (CVal.num 5)).2 = false ∧
    getConfig (setConfig CONFIGv "ui.theme.x" (CVal.num 5)).1 "ui.theme.x"
      = none := by
  exact ⟨rfl, rfl⟩

/-- Witness for C9's amended theorem: writing a fresh two-level path into an
empty configuration creates the level and reads back. -/
theorem config_get_set_witness :
    splitDots "ui.newFlag" = ["ui"] ++ ["newFlag"] ∧
    setPathOk (CVal.obj []) ["ui"] = true ∧
    getConfig (setConfig (CVal.obj []) "ui.newFlag" (CVal.bool true)).1
        "ui.newFlag" = some (CVal.bool true) := by
  refine ⟨rfl, rfl, ?_⟩
  exact ((config_get_set (CVal.obj []) "ui.newFlag" (CVal.bool true)).1
    ["ui"] "newFlag" rfl rfl).2

end Storybook
